import Mathlib

/-!
Verification development for the `youtube-analytics` repository
(single source file `src/app.py`, a Streamlit application).

The development shallowly embeds the decision logic of `app.py`:

* `get_video_id`  — regex extraction of the 11-character video id
  (`app.py` lines 41-44, pattern `(?:v=|\/)([0-9A-Za-z_-]{11}).*`);
* `get_video_data` — the reconciliation of the Data-API response with the
  two Analytics-API responses (`app.py` lines 46-138), with the network
  responses modelled as explicit inputs: the metadata lookup as an
  `Option VideoItem` (the `items` list being empty returns `None` in the
  source), and the analytics try-block as an `AnalyticsOutcome` that is
  either `denied` (any exception caught at line 129) or `ok` with the row
  lists of the two report queries;
* the time-window computation (`app.py` lines 85-92), including Python's
  lexicographic (code-point) string comparison `start_date > end_date`,
  modelled by `pyStrLt`;
* the prompt construction of `analyze_with_gemini` (`app.py` lines 143-180)
  as `buildPrompt`, with the Python float formatting `:.1f` of the
  integer-valued metrics modelled by `fmt1` and the Python `str()` rendering
  of the traffic-source row list modelled by `pyListRepr`;
* the aggregation warning of `main` (`app.py` lines 301-303) as
  `aggregationWarning`.

Wall-clock inputs (`datetime.now()`) appear as explicit string parameters
(`yesterday`, `nowStr`), so every embedded function is a pure function of
the data the Python code actually consults.
-/

namespace App

/-- Python compares strings code point by code point; `Char.toNat` is the
code point of a character. -/
def pyCharLt (a b : Char) : Bool := a.toNat < b.toNat

/-- Lexicographic comparison of character lists, exactly Python's `<` on
strings. -/
def pyStrLtAux : List Char → List Char → Bool
  | [], [] => false
  | [], _ :: _ => true
  | _ :: _, [] => false
  | a :: as, b :: bs =>
    if pyCharLt a b then true
    else if pyCharLt b a then false
    else pyStrLtAux as bs

/-- Python's `<` on strings (so `s > t` in the source is `pyStrLt t s`). -/
def pyStrLt (a b : String) : Bool := pyStrLtAux a.data b.data

/-- `snippet` part of one item of the Data-API response consumed by
`get_video_data` (`app.py` lines 64-75). -/
structure Snippet where
  title : String
  publishedAt : String
  channelTitle : String
  thumbnail : String
deriving Repr, DecidableEq

/-- `statistics` part of one item of the Data-API response; the source reads
the three counters with `int(stats.get(..., 0))` (`app.py` lines 77-79), so
missing keys are already folded into the value `0` here. -/
structure Statistics where
  viewCount : Nat
  likeCount : Nat
  commentCount : Nat
deriving Repr, DecidableEq

/-- The first element of the `items` list of the Data-API response. -/
structure VideoItem where
  snippet : Snippet
  statistics : Statistics
deriving Repr, DecidableEq

/-- Result of the analytics try-block (`app.py` lines 94-136): `denied` is
any exception raised inside the block (authorization or transport failure on
either query, or malformed rows — all reach the `except` at line 129); `ok`
carries the `rows` lists of the main report query and of the traffic-source
query (`get('rows')` yielding a missing or empty list is the empty list
here). -/
inductive AnalyticsOutcome where
  | denied (detail : String)
  | ok (mainRows : List (List Nat)) (trafficRows : List (String × Nat))
deriving Repr, DecidableEq

/-- The `video_info` dictionary returned by `get_video_data`
(`app.py` lines 69-80 and 115-136). -/
structure VideoInfo where
  id : String
  title : String
  published_at : String
  publish_date : String
  channel_title : String
  thumbnail : String
  view_count : Nat
  like_count : Nat
  comment_count : Nat
  analytics_views : Nat
  watch_time_min : Nat
  avg_duration_sec : Nat
  traffic_sources : List (String × Nat)
  analysis_period : String
deriving Repr, DecidableEq

/-- The literal stored in `analysis_period` by the `except` branch
(`app.py` line 136). -/
def noDataLabel : String := "데이터 없음"

/-- The time-window computation of `get_video_data` (`app.py` lines 85-92):
`start_date` is the publication date, `end_date` is yesterday, and if
`start_date > end_date` (Python string comparison) then `end_date` is set to
`start_date`. -/
def computeWindow (publish_date yesterday : String) : String × String :=
  if pyStrLt yesterday publish_date then (publish_date, publish_date)
  else (publish_date, yesterday)

/-- The character class `[0-9A-Za-z_-]` of the video-id regex. -/
def isIdChar (c : Char) : Bool := c.isAlphanum || c == '_' || c == '-'

/-- The `{11}` part of the regex: exactly eleven id characters starting
here, returning the captured group. -/
def take11 (cs : List Char) : Option (List Char) :=
  let g := cs.take 11
  if g.length = 11 ∧ g.all isIdChar = true then some g else none

/-- One attempt of the regex `(?:v=|\/)([0-9A-Za-z_-]{11}).*` at a fixed
start position: the alternation tries `v=` and then `/`, each followed by
eleven id characters; the trailing `.*` imposes no constraint. -/
def matchStart (cs : List Char) : Option (List Char) :=
  match cs with
  | [] => none
  | c :: rest =>
    if c = 'v' then
      match rest with
      | c2 :: rest2 => if c2 = '=' then take11 rest2 else none
      | [] => none
    else if c = '/' then take11 rest
    else none

/-- `re.search` scanning: try each start position from the left, returning
the first captured group. -/
def searchAux : List Char → Option (List Char)
  | [] => none
  | c :: rest =>
    match matchStart (c :: rest) with
    | some g => some g
    | none => searchAux rest

/-- `get_video_id` (`app.py` lines 41-44): `re.search` for the id pattern,
returning the captured group, or `None` when there is no match. -/
def get_video_id (url : String) : Option String :=
  (searchAux url.data).map String.mk

/-- `get_video_data` (`app.py` lines 46-138). The metadata response is
`item?` (`none` models an empty `items` list, making the function return
`None` at line 62); `yesterday` is `datetime.now() - timedelta(days=1)`
formatted `YYYY-MM-DD`; `outcome` is the analytics try-block result.
The zero-filled record with `analysis_period = noDataLabel` is exactly what
the `except` branch (lines 129-136) leaves behind; a first main row with
fewer than three entries makes the Python row indexing raise inside the
`try`, which the same `except` turns into that zero-filled record. -/
def get_video_data (item? : Option VideoItem) (video_id : String)
    (yesterday : String) (outcome : AnalyticsOutcome) : Option VideoInfo :=
  match item? with
  | none => none
  | some item =>
    let publish_date := item.snippet.publishedAt.take 10
    let win := computeWindow publish_date yesterday
    let start_date := win.1
    let end_date := win.2
    let base : VideoInfo :=
      { id := video_id
        title := item.snippet.title
        published_at := item.snippet.publishedAt
        publish_date := publish_date
        channel_title := item.snippet.channelTitle
        thumbnail := item.snippet.thumbnail
        view_count := item.statistics.viewCount
        like_count := item.statistics.likeCount
        comment_count := item.statistics.commentCount
        analytics_views := 0
        watch_time_min := 0
        avg_duration_sec := 0
        traffic_sources := []
        analysis_period := noDataLabel }
    match outcome with
    | .denied _ => some base
    | .ok mainRows trafficRows =>
      match mainRows with
      | (a :: w :: dur :: _) :: _ =>
        some { base with
                 analytics_views := a
                 watch_time_min := w
                 avg_duration_sec := dur
                 traffic_sources := trafficRows
                 analysis_period := start_date ++ " ~ " ++ end_date }
      | [] =>
        some { base with
                 traffic_sources := trafficRows
                 analysis_period := start_date ++ " ~ " ++ end_date }
      | _ :: _ => some base

/-- The explanatory note of `analyze_with_gemini` (`app.py` line 150),
attached when the cumulative view count is positive but the aggregated
watch time is still zero. -/
def viewContextText : String := "(참고: 현재 누적 조회수는 있으나, 유튜브 상세 통계 집계 지연으로 인해 시청 시간 데이터가 아직 0으로 잡히는 상황일 수 있습니다. 이 점을 감안하여 분석해주세요.)"

/-- `view_context` of `analyze_with_gemini` (`app.py` lines 148-150):
`data.view_count > 0 and data.watch_time_min == 0`. -/
def view_context (d : VideoInfo) : String :=
  if 0 < d.view_count ∧ d.watch_time_min = 0 then viewContextText else ""

/-- The condition of the aggregation warning in `main`
(`app.py` lines 301-303): `view_count > 0 and analytics_views == 0`. -/
def aggregationWarning (d : VideoInfo) : Prop :=
  0 < d.view_count ∧ d.analytics_views = 0

instance aggregationWarningDecidable (d : VideoInfo) :
    Decidable (aggregationWarning d) :=
  inferInstanceAs (Decidable (0 < d.view_count ∧ d.analytics_views = 0))

/-- Python's `f"{x:.1f}"` applied to the integer-valued metrics the
Analytics API returns. -/
def fmt1 (n : Nat) : String := toString n ++ ".0"

/-- Python `str` of a string: single-quoted. -/
def pyQuote (s : String) : String := "\x27" ++ s ++ "\x27"

/-- Python `str` of one traffic-source row `[source_type, views]`. -/
def pyRowRepr (r : String × Nat) : String :=
  "[" ++ pyQuote r.1 ++ ", " ++ toString r.2 ++ "]"

/-- Python `str` of the `traffic_sources` row list, as interpolated into the
prompt. -/
def pyListRepr (rows : List (String × Nat)) : String :=
  "[" ++ String.intercalate ", " (rows.map pyRowRepr) ++ "]"

/-- The prompt assembled by `analyze_with_gemini` (`app.py` lines 152-180):
the f-string template with every interpolation spelled out.  `nowStr` is
`datetime.now().strftime` at line 159. -/
def buildPrompt (d : VideoInfo) (nowStr : String) : String :=
  "\n    당신은 유튜브 알고리즘 및 데이터 분석 전문가입니다. \n    아래 제공된 유튜브 동영상 데이터를 바탕으로 심층 분석을 수행하고, 성과 개선을 위한 구체적인 전략을 제안해주세요.\n\n    [영상 기본 정보]\n    - 제목: "
  ++ d.title
  ++ "\n    - 게시일: " ++ d.publish_date
  ++ "\n    - 분석 시점: " ++ nowStr
  ++ "\n    \n    [핵심 성과 데이터]\n    - 누적 조회수 (실시간): " ++ toString d.view_count
  ++ "회\n    - 누적 시청 시간: " ++ fmt1 d.watch_time_min
  ++ "분 " ++ view_context d
  ++ "\n    - 평균 시청 지속 시간: " ++ fmt1 d.avg_duration_sec
  ++ "초\n    - 좋아요 수: " ++ toString d.like_count
  ++ "개\n    - 댓글 수: " ++ toString d.comment_count
  ++ "개\n    \n    [트래픽 소스 (유입 경로)]\n    - " ++ pyListRepr d.traffic_sources
  ++ "\n\n    [요청 사항]\n    1. **데이터 진단**: 위 수치를 바탕으로 현재 영상의 성과를 냉정하게 평가해주세요. (조회수 대비 반응률, 시청 지속 시간의 적절성 등)\n    2. **문제점 발견**: 왜 조회수나 시청 시간이 이 수준인지, 트래픽 소스를 근거로 분석해주세요.\n    3. **개선 솔루션**:\n       - 클릭률(CTR)을 높이기 위한 **제목 및 썸네일 개선안** 3가지 (구체적인 카피라이팅 포함)\n       - 시청 지속 시간을 늘리기 위한 **영상 내 구성/편집 제안**\n       - 댓글 등 참여를 유도하기 위한 **구체적인 행동 지침(Call to Action)**\n    \n    분석 결과는 가독성 좋은 마크다운 형식으로 작성해주시고, 중요한 부분은 볼드체로 강조해주세요.\n    "

/-- The label of the watch-time field in the prompt template
(`app.py` line 163). -/
def watchTimeLabel : String := "누적 시청 시간"

/-- `needle` occurs as a contiguous substring of `hay`. -/
def strContains (needle hay : String) : Prop :=
  ∃ pre post, hay.data = pre ++ needle.data ++ post

/-- A concrete sample metadata item used to instantiate theorems. -/
def item0 : VideoItem :=
  { snippet :=
      { title := "T"
        publishedAt := "2026-10-10T09:00:00Z"
        channelTitle := "C"
        thumbnail := "th" }
    statistics :=
      { viewCount := 1000
        likeCount := 10
        commentCount := 5 } }

/-- The record the `except` branch produces for `item0` with a denied
analytics call: behavioral fields zero-filled, `analysis_period` the
no-data label. -/
def deniedRecord0 : VideoInfo :=
  { id := "vid0"
    title := "T"
    published_at := "2026-10-10T09:00:00Z"
    publish_date := "2026-10-10"
    channel_title := "C"
    thumbnail := "th"
    view_count := 1000
    like_count := 10
    comment_count := 5
    analytics_views := 0
    watch_time_min := 0
    avg_duration_sec := 0
    traffic_sources := []
    analysis_period := noDataLabel }

/-- A populated record in the early-aggregation regime the spec describes:
the aggregated view count (50) is 5% of the public count (1000), watch time
positive. -/
def earlyStageRecord0 : VideoInfo :=
  { deniedRecord0 with
      analytics_views := 50
      watch_time_min := 30
      avg_duration_sec := 12
      traffic_sources := [("YT_SEARCH", 40)]
      analysis_period := "2026-10-10 ~ 2026-10-11" }

/-- A populated record whose aggregated view count is zero but whose watch
time is positive. -/
def zeroViewsRecord0 : VideoInfo :=
  { deniedRecord0 with
      watch_time_min := 5
      avg_duration_sec := 2
      analysis_period := "2026-10-10 ~ 2026-10-11" }

/-- The record of a successful analytics call that returned no rows. -/
def emptyFetchRecord0 : VideoInfo :=
  { deniedRecord0 with analysis_period := "2026-10-10 ~ 2026-10-11" }

/-- `item` with the published owning identity (`channelTitle`) replaced:
the source never compares this string with the caller's identity, so
nothing in the reconciled classification may depend on it. -/
def withIdentity (item : VideoItem) (c : String) : VideoItem :=
  { item with snippet := { item.snippet with channelTitle := c } }

/-- The success of the behavioral fetch as it is observable on the
reconciled record: the success branch always stamps a real
`start ~ end` window into `analysis_period`, while the `except` branch
stamps the no-data label.  The source performs no caller-identity
comparison anywhere; a successful analytics call is its only
authorization signal. -/
def fetchSucceededMark (r : VideoInfo) : Prop := r.analysis_period ≠ noDataLabel

theorem data_append (s t : String) : (s ++ t).data = s.data ++ t.data := by
  cases s; cases t; rfl

theorem strContains_appendL {n s : String} (t : String)
    (h : strContains n s) : strContains n (s ++ t) := by
  obtain ⟨pre, post, hd⟩ := h
  exact ⟨pre, post ++ t.data, by rw [data_append, hd]; simp⟩

theorem strContains_appendR {n t : String} (s : String)
    (h : strContains n t) : strContains n (s ++ t) := by
  obtain ⟨pre, post, hd⟩ := h
  exact ⟨s.data ++ pre, post, by rw [data_append, hd]; simp⟩

theorem watchLabel_in_piece :
    strContains watchTimeLabel "회\n    - 누적 시청 시간: " :=
  ⟨"회\n    - ".data, ": ".data, rfl⟩

theorem prompt_has_watch_label (d : VideoInfo) (nowStr : String) :
    strContains watchTimeLabel (buildPrompt d nowStr) := by
  unfold buildPrompt
  repeat
    first
    | exact strContains_appendR _ watchLabel_in_piece
    | apply strContains_appendL

theorem pyStrLtAux_irrefl (l : List Char) : pyStrLtAux l l = false := by
  induction l with
  | nil => rfl
  | cons a as ih => simp [pyStrLtAux, pyCharLt, ih]

/-- Every analysis-period string written by the success branch is distinct
from the `except`-branch label. -/
theorem window_ne_noData (s e : String) : s ++ " ~ " ++ e ≠ noDataLabel := by
  intro h
  have hm : '~' ∈ (s ++ " ~ " ++ e).data := by
    rw [data_append, data_append]
    refine List.mem_append.mpr (Or.inl ?_)
    exact List.mem_append.mpr (Or.inr (by decide))
  rw [h] at hm
  exact absurd hm (by decide)

theorem strContains_self (s : String) : strContains s s :=
  ⟨[], [], by simp⟩

theorem take11_some {cs g : List Char} (h : take11 cs = some g) :
    g = cs.take 11 ∧ g.length = 11 ∧ g.all isIdChar = true := by
  simp only [take11] at h
  split at h
  · rename_i hcond
    injection h with h2
    subst h2
    exact ⟨rfl, hcond.1, hcond.2⟩
  · cases h

theorem take11_append {g : List Char} (post : List Char)
    (h1 : g.length = 11) (h2 : g.all isIdChar = true) :
    take11 (g ++ post) = some g := by
  simp only [take11]
  have ht : (g ++ post).take 11 = g := by rw [← h1]; exact List.take_left g post
  rw [ht, if_pos ⟨h1, h2⟩]

theorem matchStart_some {l g : List Char} (h : matchStart l = some g) :
    g.length = 11 ∧ g.all isIdChar = true ∧
      ∃ tail, l = 'v' :: '=' :: (g ++ tail) ∨ l = '/' :: (g ++ tail) := by
  unfold matchStart at h
  split at h
  · cases h
  · rename_i c rest
    split at h
    · rename_i hv
      subst hv
      split at h
      · rename_i c2 rest2
        split at h
        · rename_i he
          subst he
          obtain ⟨hg, hlen, hall⟩ := take11_some h
          refine ⟨hlen, hall, rest2.drop 11, Or.inl ?_⟩
          subst hg
          rw [List.take_append_drop]
        · cases h
      · cases h
    · split at h
      · rename_i hs
        subst hs
        obtain ⟨hg, hlen, hall⟩ := take11_some h
        refine ⟨hlen, hall, rest.drop 11, Or.inr ?_⟩
        subst hg
        rw [List.take_append_drop]
      · cases h

theorem matchStart_v {g : List Char} (tail : List Char)
    (h1 : g.length = 11) (h2 : g.all isIdChar = true) :
    matchStart ('v' :: '=' :: (g ++ tail)) = some g :=
  take11_append tail h1 h2

theorem matchStart_slash {g : List Char} (tail : List Char)
    (h1 : g.length = 11) (h2 : g.all isIdChar = true) :
    matchStart ('/' :: (g ++ tail)) = some g :=
  take11_append tail h1 h2

theorem searchAux_some : ∀ {l g : List Char}, searchAux l = some g →
    g.length = 11 ∧ g.all isIdChar = true ∧
      ∃ pre post, l = pre ++ ('v' :: '=' :: g) ++ post
        ∨ l = pre ++ ('/' :: g) ++ post := by
  intro l
  induction l with
  | nil => intro g h; simp [searchAux] at h
  | cons c rest ih =>
    intro g h
    simp only [searchAux] at h
    cases hm : matchStart (c :: rest) with
    | some g2 =>
      rw [hm] at h
      injection h with h2
      subst h2
      obtain ⟨hlen, hall, tail, ht⟩ := matchStart_some hm
      refine ⟨hlen, hall, [], tail, ?_⟩
      rcases ht with ht | ht
      · left; rw [ht]; simp
      · right; rw [ht]; simp
    | none =>
      rw [hm] at h
      obtain ⟨hlen, hall, pre, post, hp⟩ := ih h
      refine ⟨hlen, hall, c :: pre, post, ?_⟩
      rcases hp with hp | hp
      · left; rw [hp]; simp
      · right; rw [hp]; simp

theorem searchAux_complete : ∀ (pre : List Char) {g : List Char}
    (l post : List Char), g.length = 11 → g.all isIdChar = true →
    (l = pre ++ ('v' :: '=' :: g) ++ post ∨ l = pre ++ ('/' :: g) ++ post) →
    (searchAux l).isSome = true := by
  intro pre
  induction pre with
  | nil =>
    intro g l post h1 h2 hl
    rcases hl with hl | hl
    · have hl2 : l = 'v' :: '=' :: (g ++ post) := by rw [hl]; simp
      subst hl2
      simp only [searchAux]
      rw [matchStart_v post h1 h2]
      rfl
    · have hl2 : l = '/' :: (g ++ post) := by rw [hl]; simp
      subst hl2
      simp only [searchAux]
      rw [matchStart_slash post h1 h2]
      rfl
  | cons c pre' ih =>
    intro g l post h1 h2 hl
    rcases hl with hl | hl
    · have hl2 : l = c :: (pre' ++ ('v' :: '=' :: g) ++ post) := by rw [hl]; simp
      subst hl2
      simp only [searchAux]
      cases hm : matchStart (c :: (pre' ++ ('v' :: '=' :: g) ++ post)) with
      | some g2 => rfl
      | none => exact ih _ post h1 h2 (Or.inl rfl)
    · have hl2 : l = c :: (pre' ++ ('/' :: g) ++ post) := by rw [hl]; simp
      subst hl2
      simp only [searchAux]
      cases hm : matchStart (c :: (pre' ++ ('/' :: g) ++ post)) with
      | some g2 => rfl
      | none => exact ih _ post h1 h2 (Or.inr rfl)

theorem get_video_data_isSome (item : VideoItem) (vid y : String)
    (o : AnalyticsOutcome) :
    (get_video_data (some item) vid y o).isSome = true := by
  cases o with
  | denied d => rfl
  | ok m t =>
    cases m with
    | nil => rfl
    | cons row more =>
      cases row with
      | nil => rfl
      | cons a r2 =>
        cases r2 with
        | nil => rfl
        | cons w r3 =>
          cases r3 with
          | nil => rfl
          | cons dur r4 => rfl

/-- C1: reconciliation is total and never fails — for every behavioral
outcome the function returns a record once a metadata item exists; a denied
analytics call yields the zero-filled behavioral fields
(`analytics_views = watch_time_min = avg_duration_sec = 0`, empty
`traffic_sources`); and the only abort is the missing public-metrics record
(`items` empty), signalled by `none`. -/
theorem c1_reconcile_total (item? : Option VideoItem) (item : VideoItem)
    (vid y detail : String) (outcome : AnalyticsOutcome) :
    (get_video_data item? vid y outcome = none ↔ item? = none)
    ∧ (get_video_data (some item) vid y outcome).isSome = true
    ∧ (get_video_data (some item) vid y (.denied detail)).map
        VideoInfo.analytics_views = some 0
    ∧ (get_video_data (some item) vid y (.denied detail)).map
        VideoInfo.watch_time_min = some 0
    ∧ (get_video_data (some item) vid y (.denied detail)).map
        VideoInfo.avg_duration_sec = some 0
    ∧ (get_video_data (some item) vid y (.denied detail)).map
        VideoInfo.traffic_sources = some [] := by
  refine ⟨?_, get_video_data_isSome item vid y outcome, rfl, rfl, rfl, rfl⟩
  cases item? with
  | none => simp [get_video_data]
  | some i =>
    constructor
    · intro h
      have hs := get_video_data_isSome i vid y outcome
      rw [h] at hs
      simp at hs
    · intro h
      exact Option.noConfusion h

/-- C2 counterexample: at a populated record with `view_count = 1000`,
`analytics_views = 50` (5%, below the claimed 10% threshold) and
`watch_time_min = 30`, the claimed AGGREGATING condition
(`watched_minutes = 0` or aggregated count below 10% of the public count)
holds, yet neither of the code's aggregation signals fires: the dashboard
warning (`main`, lines 301-303) is off and the prompt note
(`analyze_with_gemini`, lines 148-150) is empty — the record sits on the
settled display path.  The 10% threshold does not exist in the code. -/
theorem c2_counterexample :
    get_video_data (some item0) "vid0" "2026-10-11"
        (.ok [[50, 30, 12]] [("YT_SEARCH", 40)]) = some earlyStageRecord0
    ∧ (earlyStageRecord0.watch_time_min = 0
        ∨ 10 * earlyStageRecord0.analytics_views < earlyStageRecord0.view_count)
    ∧ ¬ aggregationWarning earlyStageRecord0
    ∧ view_context earlyStageRecord0 = ""
    ∧ earlyStageRecord0.analysis_period ≠ noDataLabel := by
  refine ⟨by decide, by decide, by decide, by decide, by decide⟩

/-- C2 (amended): the code has no 10%-of-view-count threshold.  For every
populated outcome the two aggregation-lag signals are:
the dashboard warning fires exactly when `view_count > 0` and the
aggregated `analytics_views` is exactly `0`, and the prompt note is
attached exactly when `view_count > 0` and `watch_time_min` is exactly
`0`. -/
theorem c2_threshold_amended (item : VideoItem) (vid y : String)
    (a w dur : Nat) (rest : List Nat) (more : List (List Nat))
    (ts : List (String × Nat)) (r : VideoInfo)
    (h : get_video_data (some item) vid y
        (.ok ((a :: w :: dur :: rest) :: more) ts) = some r) :
    (aggregationWarning r ↔ 0 < item.statistics.viewCount ∧ a = 0)
    ∧ (view_context r ≠ "" ↔ 0 < item.statistics.viewCount ∧ w = 0) := by
  have h2 := Option.some.inj h
  subst h2
  constructor
  · exact Iff.rfl
  · by_cases hc : 0 < item.statistics.viewCount ∧ w = 0
    · unfold view_context
      rw [if_pos hc]
      exact iff_of_true (by decide) hc
    · unfold view_context
      rw [if_neg hc]
      exact iff_of_false (by simp) hc

theorem c2_threshold_amended_witness :
    aggregationWarning zeroViewsRecord0 ↔ (0 < (1000 : Nat) ∧ (0 : Nat) = 0) :=
  (c2_threshold_amended item0 "vid0" "2026-10-11" 0 5 2 [] [] []
    zeroViewsRecord0 (by decide)).1

/-- C3: for every denied behavioral outcome the resulting record carries the
code's unauthorized marker — `analysis_period` is the no-data label and all
behavioral fields are zero-filled — for all metadata items, resource ids,
evaluation dates and error details, i.e. regardless of any other input
field. -/
theorem c3_denied_unauthorized (item : VideoItem) (vid y detail : String) :
    (get_video_data (some item) vid y (.denied detail)).map
        VideoInfo.analysis_period = some noDataLabel
    ∧ (get_video_data (some item) vid y (.denied detail)).map
        VideoInfo.analytics_views = some 0
    ∧ (get_video_data (some item) vid y (.denied detail)).map
        VideoInfo.watch_time_min = some 0
    ∧ (get_video_data (some item) vid y (.denied detail)).map
        VideoInfo.avg_duration_sec = some 0
    ∧ (get_video_data (some item) vid y (.denied detail)).map
        VideoInfo.traffic_sources = some [] :=
  ⟨rfl, rfl, rfl, rfl, rfl⟩

/-- C4: the behavioral-fetch-success marker (the code's only ownership
signal — it never compares identity strings) is present on the record
exactly for successful outcomes: it holds after an empty fetch and after a
populated fetch, never after a denied fetch, and the availability marking
is invariant under any change of the resource's published owning identity
(`channelTitle`), for every outcome. -/
theorem c4_ownership_confirmed (item : VideoItem) (vid y detail : String)
    (ts : List (String × Nat)) (a w dur : Nat) (rest : List Nat)
    (more : List (List Nat)) :
    (∀ r, get_video_data (some item) vid y (.ok [] ts) = some r
        → fetchSucceededMark r)
    ∧ (∀ r, get_video_data (some item) vid y
          (.ok ((a :: w :: dur :: rest) :: more) ts) = some r
        → fetchSucceededMark r)
    ∧ (∀ r, get_video_data (some item) vid y (.denied detail) = some r
        → ¬ fetchSucceededMark r)
    ∧ (∀ (c1 c2 : String) (outcome : AnalyticsOutcome),
        (get_video_data (some (withIdentity item c1)) vid y outcome).map
            VideoInfo.analysis_period
          = (get_video_data (some (withIdentity item c2)) vid y outcome).map
              VideoInfo.analysis_period) := by
  refine ⟨?_, ?_, ?_, ?_⟩
  · intro r h
    have h2 := Option.some.inj h
    subst h2
    exact window_ne_noData _ _
  · intro r h
    have h2 := Option.some.inj h
    subst h2
    exact window_ne_noData _ _
  · intro r h
    have h2 := Option.some.inj h
    subst h2
    intro hne
    exact hne rfl
  · intro c1 c2 outcome
    cases outcome with
    | denied d2 => rfl
    | ok m t =>
      cases m with
      | nil => rfl
      | cons row more2 =>
        cases row with
        | nil => rfl
        | cons x q2 =>
          cases q2 with
          | nil => rfl
          | cons x2 q3 =>
            cases q3 with
            | nil => rfl
            | cons x3 q4 => rfl

theorem c4_ownership_confirmed_witness : fetchSucceededMark emptyFetchRecord0 :=
  (c4_ownership_confirmed item0 "vid0" "2026-10-11" "err" [] 0 0 0 [] []).1
    emptyFetchRecord0 (by decide)

/-- C5: the analysis window has `start_date` equal to the publication date;
`end_date` is yesterday unless the publication date is later (Python string
comparison on `YYYY-MM-DD` dates), in which case `end_date = start_date`;
when the publication date equals today (and yesterday precedes today) the
window degenerates to `(start, start)`; and the window is never inverted. -/
theorem c5_time_window (p y today : String) :
    (computeWindow p y).1 = p
    ∧ (pyStrLt y p = false → (computeWindow p y).2 = y)
    ∧ (pyStrLt y p = true → (computeWindow p y).2 = p)
    ∧ (p = today → pyStrLt y today = true → computeWindow p y = (p, p))
    ∧ pyStrLt (computeWindow p y).2 (computeWindow p y).1 = false := by
  refine ⟨?_, ?_, ?_, ?_, ?_⟩
  · unfold computeWindow
    split <;> rfl
  · intro h
    unfold computeWindow
    rw [if_neg (by simp [h])]
  · intro h
    unfold computeWindow
    rw [if_pos h]
  · intro hp hy
    subst hp
    unfold computeWindow
    rw [if_pos hy]
  · unfold computeWindow
    by_cases h : pyStrLt y p = true
    · rw [if_pos h]
      exact pyStrLtAux_irrefl _
    · rw [if_neg h]
      simp at h
      exact h

theorem c5_time_window_witness :
    computeWindow "2026-10-12" "2026-10-11" = ("2026-10-12", "2026-10-12") :=
  (c5_time_window "2026-10-12" "2026-10-11" "2026-10-12").2.2.2.1 rfl (by decide)

/-- C6 counterexample: for the denied (unauthorized) record, the prompt that
is handed to the report generator still references the watch-time field:
the claim that the generator's input omits `watched_minutes` in the
unauthorized state is false — `analyze_with_gemini` always interpolates
every field. -/
theorem c6_counterexample :
    get_video_data (some item0) "vid0" "2026-10-11"
        (.denied "HttpError 403") = some deniedRecord0
    ∧ deniedRecord0.analysis_period = noDataLabel
    ∧ strContains watchTimeLabel (buildPrompt deniedRecord0 "2026-10-12 10:00") :=
  ⟨by decide, rfl, prompt_has_watch_label deniedRecord0 _⟩

/-- C6 (amended): no scenario-based field subsetting exists — the prompt
always contains the watch-time field label and the formatted
`watch_time_min` value, for every record in every state; only the advisory
context note varies with the state. -/
theorem c6_prompt_fields_amended (d : VideoInfo) (nowStr : String) :
    strContains watchTimeLabel (buildPrompt d nowStr)
    ∧ strContains (fmt1 d.watch_time_min) (buildPrompt d nowStr) := by
  refine ⟨prompt_has_watch_label d nowStr, ?_⟩
  unfold buildPrompt
  repeat
    first
    | exact strContains_appendR _ (strContains_self _)
    | apply strContains_appendL

/-- C7: a denied behavioral outcome and an empty (succeeded, zero rows)
behavioral outcome produce distinguishable records under the same public
metrics: the absent-versus-present-but-zeroed distinction is never
collapsed, because the success branch stamps a real window string while the
denial stamps the no-data label. -/
theorem c7_denied_vs_empty_distinct (item : VideoItem) (vid y detail : String)
    (ts : List (String × Nat)) :
    get_video_data (some item) vid y (.denied detail)
      ≠ get_video_data (some item) vid y (.ok [] ts) := by
  intro h
  have h2 := Option.some.inj h
  have h3 := congrArg VideoInfo.analysis_period h2
  exact window_ne_noData _ _ h3.symm

theorem c7_denied_vs_empty_distinct_witness :
    get_video_data (some item0) "vid0" "2026-10-11" (.denied "e")
      ≠ get_video_data (some item0) "vid0" "2026-10-11" (.ok [] []) :=
  c7_denied_vs_empty_distinct item0 "vid0" "2026-10-11" "e" []

/-- C8: identifier extraction is pure, deterministic and total (it is a
Lean function into `Option`); whenever it returns an id, that id is an
11-character token of the id alphabet embedded in the reference string in
query-parameter (`v=<id>`) or path-segment (`/<id>`) form; whenever such an
embedded token exists the extraction succeeds; and it returns the explicit
not-found signal `none` exactly when no such pattern occurs. -/
theorem c8_video_id_extraction (url : String) :
    (∀ id : String, get_video_id url = some id →
        id.data.length = 11 ∧ id.data.all isIdChar = true ∧
        ∃ pre post, url.data = pre ++ ('v' :: '=' :: id.data) ++ post
          ∨ url.data = pre ++ ('/' :: id.data) ++ post)
    ∧ ((∃ (g pre post : List Char), g.length = 11 ∧ g.all isIdChar = true ∧
          (url.data = pre ++ ('v' :: '=' :: g) ++ post
            ∨ url.data = pre ++ ('/' :: g) ++ post)) →
        (get_video_id url).isSome = true)
    ∧ (get_video_id url = none →
        ¬ ∃ (g pre post : List Char), g.length = 11 ∧ g.all isIdChar = true ∧
          (url.data = pre ++ ('v' :: '=' :: g) ++ post
            ∨ url.data = pre ++ ('/' :: g) ++ post)) := by
  refine ⟨?_, ?_, ?_⟩
  · intro id h
    unfold get_video_id at h
    cases hs : searchAux url.data with
    | none => rw [hs] at h; cases h
    | some g =>
      rw [hs] at h
      injection h with h2
      subst h2
      obtain ⟨hlen, hall, pre, post, hp⟩ := searchAux_some hs
      exact ⟨hlen, hall, pre, post, hp⟩
  · rintro ⟨g, pre, post, h1, h2, hp⟩
    have hc := searchAux_complete pre url.data post h1 h2 hp
    unfold get_video_id
    cases hx : searchAux url.data with
    | none => rw [hx] at hc; simp at hc
    | some g2 => rfl
  · intro hn
    rintro ⟨g, pre, post, h1, h2, hp⟩
    have hc := searchAux_complete pre url.data post h1 h2 hp
    unfold get_video_id at hn
    cases hx : searchAux url.data with
    | some g2 => rw [hx] at hn; simp at hn
    | none => rw [hx] at hc; simp at hc

theorem c8_video_id_extraction_witness :
    (get_video_id "v=abcdefghijk").isSome = true :=
  (c8_video_id_extraction "v=abcdefghijk").2.1
    ⟨"abcdefghijk".data, [], [], by decide, by decide, Or.inl (by decide)⟩

/-- C9: reconciliation is deterministic — identical inputs (metadata
response, resource id, evaluation date, analytics responses) produce
identical records; the embedding passes every effectful input explicitly,
so the function consults nothing else. -/
theorem c9_deterministic (i1 i2 : Option VideoItem) (v1 v2 y1 y2 : String)
    (o1 o2 : AnalyticsOutcome) (hi : i1 = i2) (hv : v1 = v2) (hy : y1 = y2)
    (ho : o1 = o2) :
    get_video_data i1 v1 y1 o1 = get_video_data i2 v2 y2 o2 := by
  rw [hi, hv, hy, ho]

theorem c9_deterministic_witness :
    get_video_data (some item0) "vid0" "2026-10-11" (.denied "e")
      = get_video_data (some item0) "vid0" "2026-10-11" (.denied "e") :=
  c9_deterministic _ _ _ _ _ _ _ _ rfl rfl rfl rfl

/-- C10: the two analytics queries are parsed independently — when the main
query returns no rows all three watch metrics are zero while
`traffic_sources` still carries the traffic query's rows, so a record can
have zero watch metrics and a non-empty traffic breakdown at the same
time. -/
theorem c10_independent_queries (item : VideoItem) (vid y : String)
    (ts : List (String × Nat)) :
    (get_video_data (some item) vid y (.ok [] ts)).map
        VideoInfo.analytics_views = some 0
    ∧ (get_video_data (some item) vid y (.ok [] ts)).map
        VideoInfo.watch_time_min = some 0
    ∧ (get_video_data (some item) vid y (.ok [] ts)).map
        VideoInfo.avg_duration_sec = some 0
    ∧ (get_video_data (some item) vid y (.ok [] ts)).map
        VideoInfo.traffic_sources = some ts
    ∧ ∃ r, get_video_data (some item) vid y (.ok [] [("BROWSE", 7)]) = some r
        ∧ r.watch_time_min = 0 ∧ r.analytics_views = 0
        ∧ r.traffic_sources ≠ [] := by
  refine ⟨rfl, rfl, rfl, rfl, ⟨_, rfl, rfl, rfl, ?_⟩⟩
  exact (by decide : ([("BROWSE", 7)] : List (String × Nat)) ≠ [])

end App
